import Mathlib

/-!
Shallow embedding of `src/bot.py` (the-umedov/moviebot): a Telegram movie bot
whose core is a three-step submission wizard (code -> title -> content),
a channel-subscription access gate, a code-to-movie content store, and a
join-request auto-approver.  External effects (the Telegram transport and
the Postgres table) are made explicit: the membership API response is a
parameter, the `movies` table is a list of rows, and messages sent to the
user are collected as a list of output events.
-/

set_option autoImplicit false

namespace MovieBot

/-- Python `str.strip()` on both ends, on the character list of a string:
drop whitespace from the front, then from the back.  (Matches `.strip()`
on the ASCII whitespace the bot ever sees.) -/
def stripChars (l : List Char) : List Char :=
  ((l.dropWhile Char.isWhitespace).reverse.dropWhile Char.isWhitespace).reverse

/-- Python `(message.text or "").strip()`. -/
def pyStrip (s : String) : String :=
  ⟨stripChars s.data⟩

/-- Whether `pre` is a prefix of `l` (character lists). -/
def listStartsWith : List Char → List Char → Bool
  | _, [] => true
  | [], _ :: _ => false
  | a :: as, b :: bs => decide (a = b) && listStartsWith as bs

/-- Python `s.startswith(pre)`. -/
def pyStartsWith (s pre : String) : Bool :=
  listStartsWith s.data pre.data

/-- Digits of a candidate integer literal: nonempty and all ASCII digits. -/
def digitsToNat? (l : List Char) : Option Nat :=
  if l.isEmpty ∨ ¬ l.all Char.isDigit then none
  else some (l.foldl (fun n c => 10 * n + c.toNat - 48) 0)

/-- Python `int(s)` (returning `none` for `ValueError`): surrounding
whitespace ignored, optional sign, then a nonempty digit string.
(Underscore digit separators, which CPython also accepts, are not
modelled; no configured channel id uses them.) -/
def pyIntParse (s : String) : Option Int :=
  match stripChars s.data with
  | '-' :: rest => (digitsToNat? rest).map (fun n => -(n : Int))
  | '+' :: rest => (digitsToNat? rest).map (fun n => (n : Int))
  | l => (digitsToNat? l).map (fun n => (n : Int))

/-- A row of the `movies` table (`CREATE_SQL` in bot.py):
`code` is the primary key, `kind` is the string discriminator
`"link" | "telegram"`, `payload` is a URL or a video file id. -/
structure MovieRow where
  code : String
  title : String
  kind : String
  payload : String
deriving DecidableEq, Repr

/-- The `movies` table, as the list of its rows.
Invariant maintained by `upsert_movie`: codes are unique (PRIMARY KEY). -/
abbrev DB := List MovieRow

/-- Embeds `upsert_movie` (bot.py lines 77-91): `INSERT ... ON CONFLICT(code) DO
UPDATE SET title/kind/payload` — if a row with this code exists it is
overwritten in place, otherwise a new row is inserted. -/
def upsert_movie (db : DB) (code title kind payload : String) : DB :=
  if db.any (fun r => r.code == code) then
    db.map (fun r => if r.code == code then ⟨code, title, kind, payload⟩ else r)
  else
    db ++ [⟨code, title, kind, payload⟩]

/-- Embeds `get_movie` (bot.py lines 93-102): `SELECT title, kind, payload FROM
movies WHERE code=$1`, `None` when absent. -/
def get_movie (db : DB) (code : String) : Option (String × String × String) :=
  (db.find? (fun r => r.code == code)).map (fun r => (r.title, r.kind, r.payload))

/-- Insert a row into a list sorted by `code` ascending (helper used to
model `ORDER BY code ASC`). -/
def insertByCode (r : MovieRow) : List MovieRow → List MovieRow
  | [] => [r]
  | x :: xs => if r.code ≤ x.code then r :: x :: xs else x :: insertByCode r xs

/-- Sort the table by `code` ascending (insertion sort). -/
def sortByCode (db : DB) : List MovieRow :=
  db.foldr insertByCode []

/-- Embeds `list_movies` (bot.py lines 104-108): `SELECT code, title FROM movies
ORDER BY code ASC`. -/
def list_movies (db : DB) : List (String × String) :=
  (sortByCode db).map (fun r => (r.code, r.title))

/-- Outcome of the external `bot.get_chat_member` call inside
`is_subscribed`: either the call raised (network error, permission error,
malformed channel id, ...) or it returned a member object carrying a
status string and an `is_member` flag (absent attribute modelled as the
default `false`, matching `getattr(member, "is_member", False)`). -/
inductive OracleResult where
  | failure
  | ok (status : String) (is_member : Bool)
deriving DecidableEq, Repr

/-- Embeds `is_subscribed` (bot.py lines 133-149), as a function of the external
call's outcome: creator/administrator/member => True; restricted => the
`is_member` flag; any other status => False; any exception => False. -/
def is_subscribed : OracleResult → Bool
  | .failure => false
  | .ok status is_member =>
    if status = "creator" ∨ status = "administrator" ∨ status = "member" then true
    else if status = "restricted" then is_member
    else false

/-- An inbound Telegram message, restricted to the fields bot.py reads:
the sender id (`message.from_user`, `none` when absent), the text
(`message.text`, `none` when absent), and an attached video's `file_id`
(`message.video`). -/
structure Msg where
  fromUser : Option Nat
  text : Option String
  video : Option String
deriving DecidableEq, Repr

/-- Embeds `message.from_user.id if message.from_user else 0`. -/
def userId (msg : Msg) : Nat :=
  msg.fromUser.getD 0

/-- Messages the bot sends back, abstracted to tags (the literal Uzbek
text of each `message.answer` is irrelevant to the logic). -/
inductive Out where
  /-- The join prompt with the invite/check keyboard (`join_kb`). -/
  | joinPrompt
  /-- "Kino kodini yuboring" prompt after `/kino`. -/
  | askCode
  /-- "Kino nomini yuboring" prompt after a valid code. -/
  | askTitle
  /-- The link-or-video prompt after a valid title. -/
  | askContent
  /-- "Kod noto'g'ri" re-prompt on an invalid code. -/
  | badCode
  /-- "Nom bo'sh bo'lmasin" re-prompt on an empty title. -/
  | emptyTitle
  /-- "Link yoki video yuboring" re-prompt on unrecognized content. -/
  | badContent
  /-- "Saqlandi!" confirmation after a successful upsert. -/
  | saved (code title kind : String)
  /-- Rendering a stored link: title + URL in one message. -/
  | movieLink (title payload : String)
  /-- "Kino topildi, yuboryapman..." header before a video send. -/
  | videoHeader (title : String)
  /-- The video delivered by `answer_video(payload)`. -/
  | movieVideo (title payload : String)
  /-- Fallback: the raw file id as text when video delivery raised. -/
  | fileIdFallback (payload : String)
deriving DecidableEq, Repr

/-- The environment the handlers run against: for each user id, the
outcome the membership oracle would report (`oracle`), and whether a
`answer_video` delivery would succeed (`videoDeliveryOk`, the try/except
in `send_movie`). -/
structure Env where
  oracle : Nat → OracleResult
  videoDeliveryOk : Bool

/-- Embeds `require_subscribed` (bot.py lines 151-163): a falsy (absent or zero)
user id is refused immediately, with no oracle query and no message;
otherwise the oracle is consulted and, on a negative verdict, the join
prompt is sent.  Returns the verdict and the messages sent. -/
def require_subscribed (env : Env) (msg : Msg) : Bool × List Out :=
  if userId msg = 0 then (false, [])
  else
    let ok := is_subscribed (env.oracle (userId msg))
    (ok, if ok then [] else [.joinPrompt])

/-- The wizard position of the aiogram FSM: `none` state or one of the
three `AddMovie` states (bot.py lines 198-201). -/
inductive WState where
  | idle
  | code
  | title
  | content
deriving DecidableEq, Repr

/-- A user's FSM context: current state plus the data dict written by
`state.update_data(code=..., title=...)`. -/
structure Session where
  state : WState
  draftCode : Option String
  draftTitle : Option String
deriving DecidableEq, Repr

/-- Embeds `state.clear()`: state back to none and the data dict emptied. -/
def Session.cleared : Session :=
  ⟨.idle, none, none⟩

/-- The character class `[A-Za-z0-9_-]` of `CODE_RE` (bot.py line 203). -/
def isCodeChar (c : Char) : Bool :=
  c.isAlpha || c.isDigit || c = '_' || c = '-'

/-- Embeds `CODE_RE.match(s)` for `CODE_RE = ^[A-Za-z0-9_-]{1,32}$`: between 1
and 32 characters, all in the class. -/
def CODE_RE_match (s : String) : Bool :=
  decide (1 ≤ s.data.length) && decide (s.data.length ≤ 32) && s.data.all isCodeChar

/-- Embeds `send_movie` (bot.py lines 205-214): a `"link"` row is rendered as
title + URL; any other kind sends a header then tries `answer_video`,
falling back to the raw file id as text when delivery raises. -/
def send_movie (env : Env) (title kind payload : String) : List Out :=
  if kind = "link" then [.movieLink title payload]
  else
    .videoHeader title ::
      (if env.videoDeliveryOk then [.movieVideo title payload]
       else [.fileIdFallback payload])

/-- Embeds `add_movie_cmd` (bot.py lines 276-281), the `/kino` wizard entry:
gate first; on Allowed, set state to `AddMovie.code` and prompt. -/
def add_movie_cmd (env : Env) (msg : Msg) (s : Session) (db : DB) :
    Session × DB × List Out :=
  let r := require_subscribed env msg
  if r.1 then ({ s with state := .code }, db, r.2 ++ [.askCode])
  else (s, db, r.2)

/-- Embeds `add_movie_code` (bot.py lines 284-296): gate first; strip the text;
reject (stay, re-prompt) unless `CODE_RE` matches; else store the stripped
code as draft data and advance to `AddMovie.title`. -/
def add_movie_code (env : Env) (msg : Msg) (s : Session) (db : DB) :
    Session × DB × List Out :=
  let r := require_subscribed env msg
  if r.1 then
    let code := pyStrip (msg.text.getD "")
    if CODE_RE_match code then
      ({ s with state := .title, draftCode := some code }, db, r.2 ++ [.askTitle])
    else (s, db, r.2 ++ [.badCode])
  else (s, db, r.2)

/-- Embeds `add_movie_title` (bot.py lines 299-316): gate first; strip the text;
reject if empty; else store the stripped title and advance to
`AddMovie.content`. -/
def add_movie_title (env : Env) (msg : Msg) (s : Session) (db : DB) :
    Session × DB × List Out :=
  let r := require_subscribed env msg
  if r.1 then
    let title := pyStrip (msg.text.getD "")
    if title = "" then (s, db, r.2 ++ [.emptyTitle])
    else
      ({ s with state := .content, draftTitle := some title }, db, r.2 ++ [.askContent])
  else (s, db, r.2)

/-- Embeds `add_movie_content` (bot.py lines 319-345): gate first; read the draft
code and title from the FSM data (always present in this state, since the
wizard only reaches `content` through the two previous steps; a missing
key would raise in Python and is modelled by the `""` default); a stripped
text starting with `http://` or `https://` commits a `"link"` row and
clears the session; else an attached video commits a `"telegram"` row with
the file id and clears the session; else re-prompt and stay. -/
def add_movie_content (env : Env) (msg : Msg) (s : Session) (db : DB) :
    Session × DB × List Out :=
  let r := require_subscribed env msg
  if r.1 then
    let code := s.draftCode.getD ""
    let title := s.draftTitle.getD ""
    let text := pyStrip (msg.text.getD "")
    if pyStartsWith text "http://" || pyStartsWith text "https://" then
      (Session.cleared, upsert_movie db code title "link" text,
        r.2 ++ [.saved code title "link"])
    else
      match msg.video with
      | some file_id =>
        (Session.cleared, upsert_movie db code title "telegram" file_id,
          r.2 ++ [.saved code title "telegram"])
      | none => (s, db, r.2 ++ [.badContent])
  else (s, db, r.2)

/-- Embeds `handle_codes` (bot.py lines 349-363), the free-text lookup: gate
first; strip the text; empty => silent; unknown code => silent (no
message at all); known code => render via `send_movie`.  It never touches
the FSM or the table. -/
def handle_codes (env : Env) (msg : Msg) (s : Session) (db : DB) :
    Session × DB × List Out :=
  let r := require_subscribed env msg
  if r.1 then
    let text := pyStrip (msg.text.getD "")
    if text = "" then (s, db, r.2)
    else
      match get_movie db text with
      | none => (s, db, r.2)
      | some (title, kind, payload) => (s, db, r.2 ++ send_movie env title kind payload)
  else (s, db, r.2)

/-- The configured channel identifier after the cast at bot.py lines
37-40: `int(CHANNEL_ID)` when it parses, otherwise the raw string (a
public `@username`). -/
inductive ChannelCast where
  | int (n : Int)
  | username (s : String)
deriving DecidableEq, Repr

/-- Embeds `CHANNEL_ID_CAST` (bot.py lines 37-40): try `int(...)`, fall back to
the string on `ValueError`. -/
def castChannelId (s : String) : ChannelCast :=
  match pyIntParse s with
  | some n => .int n
  | none => .username s

/-- An inbound `ChatJoinRequest`: the chat it is for and the requesting
user. -/
structure JoinReq where
  chatId : Int
  reqUserId : Nat
deriving DecidableEq, Repr

/-- Whether a join-request chat id equals the configured channel id (a
numeric chat id never equals a `@username` string). -/
def chatMatches (cast : ChannelCast) (chatId : Int) : Bool :=
  match cast with
  | .int n => chatId == n
  | .username _ => false

/-- Embeds `on_join_request` (bot.py lines 169-192), reduced to whether the
`approve_chat_join_request` API call is made: the event is ignored only
when the cast channel id is an int and differs from the event's chat id;
in every other case (matching int, or a `@username` configuration, which
the guard does not check) the approval call is made.  The follow-up DM and
any approval failure are swallowed and do not affect this decision. -/
def on_join_request (cast : ChannelCast) (req : JoinReq) : Bool :=
  match cast with
  | .int n => !(req.chatId != n)
  | .username _ => true

/-- A fixed environment whose oracle reports `member` for every user and
whose video delivery succeeds; used to instantiate theorems. -/
def envMember : Env :=
  ⟨fun _ => .ok "member" true, true⟩

/-- A fixed environment whose oracle call always raises. -/
def envFail : Env :=
  ⟨fun _ => .failure, true⟩

/-! ### Store lemmas -/

theorem length_insertByCode (r : MovieRow) (l : List MovieRow) :
    (insertByCode r l).length = l.length + 1 := by
  induction l with
  | nil => rfl
  | cons x xs ih =>
    by_cases h : r.code ≤ x.code
    · simp [insertByCode, h]
    · simp [insertByCode, h, ih]

theorem length_sortByCode (db : DB) : (sortByCode db).length = db.length := by
  induction db with
  | nil => rfl
  | cons r rs ih => simp [sortByCode, List.foldr] at ih ⊢; rw [length_insertByCode, ih]

theorem length_list_movies (db : DB) : (list_movies db).length = db.length := by
  simp [list_movies, length_sortByCode]

theorem find?_overwrite (c t k p : String) :
    ∀ db : DB, db.any (fun r => r.code == c) = true →
      (db.map (fun r => if r.code == c then ⟨c, t, k, p⟩ else r)).find?
          (fun r => r.code == c) = some ⟨c, t, k, p⟩ := by
  intro db
  induction db with
  | nil => intro h; simp at h
  | cons r rs ih =>
    intro h
    rw [List.map_cons]
    by_cases hc : (r.code == c) = true
    · rw [if_pos hc, List.find?_cons_of_pos]
      show ((⟨c, t, k, p⟩ : MovieRow).code == c) = true
      exact beq_self_eq_true c
    · have hrs : rs.any (fun r => r.code == c) = true := by
        simpa [List.any_cons, hc] using h
      rw [if_neg hc, List.find?_cons_of_neg, ih hrs]
      simpa using hc

theorem find?_absent_append (c t k p : String) :
    ∀ db : DB, db.any (fun r => r.code == c) = false →
      ((db ++ [(⟨c, t, k, p⟩ : MovieRow)]).find? (fun r => r.code == c))
        = some ⟨c, t, k, p⟩ := by
  intro db
  induction db with
  | nil => simp [List.find?]
  | cons r rs ih =>
    intro h
    have hc : (r.code == c) = false := by
      by_contra hcc
      simp [List.any_cons] at h
      exact absurd (beq_iff_eq.mp (Bool.of_not_eq_false hcc)) h.1
    have hrs : rs.any (fun r => r.code == c) = false := by
      simpa [List.any_cons, hc] using h
    simp [List.find?, hc, ih hrs]

theorem get_movie_upsert_self (db : DB) (c t k p : String) :
    get_movie (upsert_movie db c t k p) c = some (t, k, p) := by
  unfold upsert_movie get_movie
  by_cases h : db.any (fun r => r.code == c) = true
  · rw [if_pos h, find?_overwrite c t k p db h]
    rfl
  · rw [if_neg h, find?_absent_append c t k p db (Bool.eq_false_iff.mpr h)]
    rfl

theorem any_of_get_movie_some (db : DB) (c : String) (v : String × String × String)
    (h : get_movie db c = some v) : db.any (fun r => r.code == c) = true := by
  unfold get_movie at h
  obtain ⟨r, hr, -⟩ := Option.map_eq_some'.mp h
  have hmem := List.mem_of_find?_eq_some hr
  have hpred := List.find?_some hr
  exact List.any_eq_true.mpr ⟨r, hmem, hpred⟩

theorem length_upsert_present (db : DB) (c t k p : String)
    (h : db.any (fun r => r.code == c) = true) :
    (upsert_movie db c t k p).length = db.length := by
  unfold upsert_movie
  rw [if_pos h, List.length_map]

/-! ### Access-gate lemmas -/

theorem require_false_of_not_subscribed (env : Env) (msg : Msg)
    (h : is_subscribed (env.oracle (userId msg)) = false) :
    (require_subscribed env msg).1 = false := by
  unfold require_subscribed
  by_cases h0 : userId msg = 0 <;> simp [h0, h]

theorem require_true_of_subscribed (env : Env) (msg : Msg)
    (hu : userId msg ≠ 0) (h : is_subscribed (env.oracle (userId msg)) = true) :
    require_subscribed env msg = (true, []) := by
  unfold require_subscribed
  simp [hu, h]

/-- Running the wizard to completion: the `/kino` entry, then one message
for each of the three steps, all from user `u`, starting from session `s`
over table `db`.  Returns the final session and table. -/
def wizardRun (env : Env) (u : Nat) (c t l : String) (s : Session) (db : DB) :
    Session × DB :=
  let r1 := add_movie_cmd env ⟨some u, some "/kino", none⟩ s db
  let r2 := add_movie_code env ⟨some u, some c, none⟩ r1.1 r1.2.1
  let r3 := add_movie_title env ⟨some u, some t, none⟩ r2.1 r2.2.1
  let r4 := add_movie_content env ⟨some u, some l, none⟩ r3.1 r3.2.1
  (r4.1, r4.2.1)

/-! ### Claims -/

/-- C1: if the Membership Oracle reports the sender as not subscribed,
every gated operation — wizard entry via `/kino`, each of the three wizard
steps, and the free-text code lookup — is denied and short-circuits: the
submission session is returned unchanged, no row is written to the movies
table, and the only output is what `require_subscribed` itself sent. -/
theorem C1_denied_short_circuits (env : Env) (msg : Msg) (s : Session) (db : DB)
    (h : is_subscribed (env.oracle (userId msg)) = false) :
    (require_subscribed env msg).1 = false ∧
    add_movie_cmd env msg s db = (s, db, (require_subscribed env msg).2) ∧
    add_movie_code env msg s db = (s, db, (require_subscribed env msg).2) ∧
    add_movie_title env msg s db = (s, db, (require_subscribed env msg).2) ∧
    add_movie_content env msg s db = (s, db, (require_subscribed env msg).2) ∧
    handle_codes env msg s db = (s, db, (require_subscribed env msg).2) := by
  have hr : (require_subscribed env msg).1 = false :=
    require_false_of_not_subscribed env msg h
  refine ⟨hr, ?_, ?_, ?_, ?_, ?_⟩ <;>
    simp [add_movie_cmd, add_movie_code, add_movie_title, add_movie_content,
      handle_codes, hr]

/-- Witness for C1 at a concrete denied input: a failing oracle, user 1,
a lookup-shaped message, an idle session, an empty table. -/
theorem C1_denied_short_circuits_witness :
    (require_subscribed envFail ⟨some 1, some "A12", none⟩).1 = false ∧
    add_movie_cmd envFail ⟨some 1, some "A12", none⟩ Session.cleared []
      = (Session.cleared, [], (require_subscribed envFail ⟨some 1, some "A12", none⟩).2) ∧
    add_movie_code envFail ⟨some 1, some "A12", none⟩ Session.cleared []
      = (Session.cleared, [], (require_subscribed envFail ⟨some 1, some "A12", none⟩).2) ∧
    add_movie_title envFail ⟨some 1, some "A12", none⟩ Session.cleared []
      = (Session.cleared, [], (require_subscribed envFail ⟨some 1, some "A12", none⟩).2) ∧
    add_movie_content envFail ⟨some 1, some "A12", none⟩ Session.cleared []
      = (Session.cleared, [], (require_subscribed envFail ⟨some 1, some "A12", none⟩).2) ∧
    handle_codes envFail ⟨some 1, some "A12", none⟩ Session.cleared []
      = (Session.cleared, [], (require_subscribed envFail ⟨some 1, some "A12", none⟩).2) :=
  C1_denied_short_circuits envFail ⟨some 1, some "A12", none⟩ Session.cleared []
    (by decide)

/-- C2: the Membership Oracle classifies the external status string
exactly as: `creator`/`administrator`/`member` map to Member; `restricted`
maps to Member precisely when the reported `is_member` flag is set; every
other status maps to NotMember. -/
theorem C2_status_classification (status : String) (m : Bool) :
    ((status = "creator" ∨ status = "administrator" ∨ status = "member") →
      is_subscribed (.ok status m) = true) ∧
    (is_subscribed (.ok "restricted" m) = m) ∧
    ((status ≠ "creator" ∧ status ≠ "administrator" ∧ status ≠ "member" ∧
        status ≠ "restricted") →
      is_subscribed (.ok status m) = false) := by
  refine ⟨fun h => by simp [is_subscribed, h], ?_, fun h => ?_⟩
  · cases m <;> decide
  · obtain ⟨h1, h2, h3, h4⟩ := h
    simp [is_subscribed, h1, h2, h3, h4]

/-- Witness for C2 at concrete statuses: `left` (with the flag set) is
NotMember, `member` is Member. -/
theorem C2_status_classification_witness :
    is_subscribed (.ok "left" true) = false ∧
    is_subscribed (.ok "member" false) = true :=
  ⟨(C2_status_classification "left" true).2.2 (by decide),
   (C2_status_classification "member" false).1 (by decide)⟩

/-- C6: an oracle transport failure makes `is_subscribed` return `False`
(fail closed) rather than propagating the exception, and on every
possible outcome the decision is one of exactly two values. -/
theorem C6_fail_closed :
    is_subscribed OracleResult.failure = false ∧
    ∀ r : OracleResult, is_subscribed r = true ∨ is_subscribed r = false := by
  refine ⟨rfl, fun r => ?_⟩
  cases h : is_subscribed r
  · exact Or.inr rfl
  · exact Or.inl rfl

/-- C10: a message with no sender identity (absent `from_user`, or user id
0) is denied by `require_subscribed` immediately — with no join prompt
sent — and every gated handler leaves the session and the table unchanged
and produces no output at all.  The environment (hence the oracle) is
universally quantified and never consulted: the result is the same for
every oracle. -/
theorem C10_missing_user_denied (env : Env) (u : Option Nat)
    (t v : Option String) (s : Session) (db : DB)
    (hu : u = none ∨ u = some 0) :
    require_subscribed env ⟨u, t, v⟩ = (false, []) ∧
    add_movie_cmd env ⟨u, t, v⟩ s db = (s, db, []) ∧
    add_movie_code env ⟨u, t, v⟩ s db = (s, db, []) ∧
    add_movie_title env ⟨u, t, v⟩ s db = (s, db, []) ∧
    add_movie_content env ⟨u, t, v⟩ s db = (s, db, []) ∧
    handle_codes env ⟨u, t, v⟩ s db = (s, db, []) := by
  have h0 : userId ⟨u, t, v⟩ = 0 := by
    rcases hu with h | h <;> simp [userId, h]
  have hr : require_subscribed env ⟨u, t, v⟩ = (false, []) := by
    simp [require_subscribed, h0]
  refine ⟨hr, ?_, ?_, ?_, ?_, ?_⟩ <;>
    simp [add_movie_cmd, add_movie_code, add_movie_title, add_movie_content,
      handle_codes, hr]

/-- Witness for C10: even with an oracle that reports `member` for every
user, a message with no `from_user` is denied with no output and no state
change. -/
theorem C10_missing_user_denied_witness :
    require_subscribed envMember ⟨none, some "A12", none⟩ = (false, []) ∧
    add_movie_cmd envMember ⟨none, some "A12", none⟩ Session.cleared []
      = (Session.cleared, [], []) ∧
    add_movie_code envMember ⟨none, some "A12", none⟩ Session.cleared []
      = (Session.cleared, [], []) ∧
    add_movie_title envMember ⟨none, some "A12", none⟩ Session.cleared []
      = (Session.cleared, [], []) ∧
    add_movie_content envMember ⟨none, some "A12", none⟩ Session.cleared []
      = (Session.cleared, [], []) ∧
    handle_codes envMember ⟨none, some "A12", none⟩ Session.cleared []
      = (Session.cleared, [], []) :=
  C10_missing_user_denied envMember none (some "A12") none Session.cleared []
    (Or.inl rfl)

theorem require_outs_nil (env : Env) (msg : Msg)
    (h : (require_subscribed env msg).1 = true) :
    (require_subscribed env msg).2 = [] := by
  unfold require_subscribed at h ⊢
  by_cases h0 : userId msg = 0
  · simp [h0] at h
  · simp [h0] at h ⊢
    simp [h]

/-- C3 (counterexample to the claim as stated): the triple
`("A12", "T", "https://x ")` is valid — the link begins with `https://` —
but completing the wizard stores the stripped payload `"https://x"`, not
the raw input text `"https://x "`. -/
theorem C3_raw_payload_counterexample :
    (wizardRun envMember 1 "A12" "T" "https://x " Session.cleared []).1
        = Session.cleared ∧
    get_movie (wizardRun envMember 1 "A12" "T" "https://x " Session.cleared []).2
        "A12" = some ("T", "link", "https://x") ∧
    get_movie (wizardRun envMember 1 "A12" "T" "https://x " Session.cleared []).2
        "A12" ≠ some ("T", "link", "https://x ") := by
  decide

/-- C3 (amended): for every `(code, title, link)` triple whose stripped
forms are valid — stripped code matches the pattern, stripped title
nonempty, stripped link begins with `http://` or `https://` — running the
wizard to completion as a subscribed user yields
`get(stripped code) = (stripped title, "link", stripped link)` (the stored
payload and title are the stripped inputs, equal to the raw inputs exactly
when those carry no surrounding whitespace), after which the session is
cleared to none. -/
theorem C3_wizard_completion_stores_trimmed (env : Env) (u : Nat)
    (c t l : String) (s : Session) (db : DB)
    (hu : u ≠ 0)
    (hsub : is_subscribed (env.oracle u) = true)
    (hc : CODE_RE_match (pyStrip c) = true)
    (ht : pyStrip t ≠ "")
    (hl : (pyStartsWith (pyStrip l) "http://"
            || pyStartsWith (pyStrip l) "https://") = true) :
    (wizardRun env u c t l s db).1 = Session.cleared ∧
    get_movie (wizardRun env u c t l s db).2 (pyStrip c)
      = some (pyStrip t, "link", pyStrip l) := by
  have hreq : ∀ txt v : Option String,
      require_subscribed env ⟨some u, txt, v⟩ = (true, []) := fun txt v =>
    require_true_of_subscribed env ⟨some u, txt, v⟩
      (by simpa [userId] using hu) (by simpa [userId] using hsub)
  constructor <;>
    simp [wizardRun, add_movie_cmd, add_movie_code, add_movie_title,
      add_movie_content, hreq, hc, ht, hl, get_movie_upsert_self]

/-- Witness for C3 (amended) at the spec's own scenario inputs. -/
theorem C3_wizard_completion_witness :
    (wizardRun envMember 1 "A12" "Fast" "https://example.com/v"
        Session.cleared []).1 = Session.cleared ∧
    get_movie (wizardRun envMember 1 "A12" "Fast" "https://example.com/v"
        Session.cleared []).2 (pyStrip "A12")
      = some (pyStrip "Fast", "link", pyStrip "https://example.com/v") :=
  C3_wizard_completion_stores_trimmed envMember 1 "A12" "Fast"
    "https://example.com/v" Session.cleared [] (by decide) (by decide)
    (by decide) (by decide) (by decide)

/-- C4 (counterexample to the claim as stated): `" A12 "` does not match
`^[A-Za-z0-9_-]{1,32}$` (it contains spaces), yet submitting it in the
`AwaitingCode` state advances the wizard to `AwaitingTitle` with draft
code `"A12"`, because the handler strips the text before matching. -/
theorem C4_untrimmed_code_counterexample :
    CODE_RE_match " A12 " = false ∧
    (add_movie_code envMember ⟨some 1, some " A12 ", none⟩
        ⟨.code, none, none⟩ []).1 = ⟨.title, some "A12", none⟩ := by
  decide

/-- C4 (amended): for every message whose *stripped* text fails the code
pattern, the code step leaves the session unchanged (still `AwaitingCode`,
no draft stored) and writes nothing to the table. -/
theorem C4_invalid_code_stays (env : Env) (msg : Msg) (s : Session) (db : DB)
    (h : CODE_RE_match (pyStrip (msg.text.getD "")) = false) :
    (add_movie_code env msg s db).1 = s ∧
    (add_movie_code env msg s db).2.1 = db := by
  by_cases hr : (require_subscribed env msg).1 = true <;>
    simp [add_movie_code, hr, h]

/-- Witness for C4 (amended): `"bad code!"` is rejected in place. -/
theorem C4_invalid_code_stays_witness :
    (add_movie_code envMember ⟨some 1, some "bad code!", none⟩
        ⟨.code, none, none⟩ []).1 = ⟨.code, none, none⟩ ∧
    (add_movie_code envMember ⟨some 1, some "bad code!", none⟩
        ⟨.code, none, none⟩ []).2.1 = [] :=
  C4_invalid_code_stays envMember ⟨some 1, some "bad code!", none⟩
    ⟨.code, none, none⟩ [] (by decide)

/-- C5: upserting an existing code with a different title (and any kind
and payload) replaces the stored record entirely — `get` afterwards
returns exactly the new title/kind/payload — and the length of `list()`
is unchanged by the overwrite. -/
theorem C5_overwrite_replaces (db : DB) (code t0 k0 p0 t1 k1 p1 : String)
    (hpresent : get_movie db code = some (t0, k0, p0))
    (hdiff : t1 ≠ t0) :
    get_movie (upsert_movie db code t1 k1 p1) code = some (t1, k1, p1) ∧
    (list_movies (upsert_movie db code t1 k1 p1)).length
      = (list_movies db).length := by
  have hany : db.any (fun r => r.code == code) = true :=
    any_of_get_movie_some db code (t0, k0, p0) hpresent
  refine ⟨get_movie_upsert_self db code t1 k1 p1, ?_⟩
  rw [length_list_movies, length_list_movies,
    length_upsert_present db code t1 k1 p1 hany]

/-- Witness for C5: overwriting code `A12` with a new title keeps one row
and `get` sees only the new record. -/
theorem C5_overwrite_replaces_witness :
    get_movie (upsert_movie [⟨"A12", "Old", "link", "u"⟩] "A12" "New"
        "telegram" "f1") "A12" = some ("New", "telegram", "f1") ∧
    (list_movies (upsert_movie [⟨"A12", "Old", "link", "u"⟩] "A12" "New"
        "telegram" "f1")).length
      = (list_movies [(⟨"A12", "Old", "link", "u"⟩ : MovieRow)]).length :=
  C5_overwrite_replaces [⟨"A12", "Old", "link", "u"⟩] "A12" "Old" "link" "u"
    "New" "telegram" "f1" (by decide) (by decide)

/-- C7: for a subscribed sender whose stripped text is nonempty and is
not the code of any stored row, the lookup handler answers with nothing
at all — no error message, no reply, no state or table change — and
`get_movie` of a never-submitted code is `none`. -/
theorem C7_unknown_code_silent (env : Env) (msg : Msg) (s : Session) (db : DB)
    (hu : userId msg ≠ 0)
    (hsub : is_subscribed (env.oracle (userId msg)) = true)
    (hne : pyStrip (msg.text.getD "") ≠ "")
    (habsent : ∀ r ∈ db, r.code ≠ pyStrip (msg.text.getD "")) :
    get_movie db (pyStrip (msg.text.getD "")) = none ∧
    handle_codes env msg s db = (s, db, []) := by
  have hget : get_movie db (pyStrip (msg.text.getD "")) = none := by
    unfold get_movie
    rw [List.find?_eq_none.mpr (fun x hx => by simpa using habsent x hx)]
    rfl
  have hr : require_subscribed env msg = (true, []) :=
    require_true_of_subscribed env msg hu hsub
  refine ⟨hget, ?_⟩
  simp [handle_codes, hr, hne, hget]

/-- Witness for C7: looking up `nope` in a table holding only `A12`. -/
theorem C7_unknown_code_silent_witness :
    get_movie [(⟨"A12", "T", "link", "u"⟩ : MovieRow)]
        (pyStrip ((⟨some 1, some "nope", none⟩ : Msg).text.getD "")) = none ∧
    handle_codes envMember ⟨some 1, some "nope", none⟩ Session.cleared
        [⟨"A12", "T", "link", "u"⟩]
      = (Session.cleared, [⟨"A12", "T", "link", "u"⟩], []) :=
  C7_unknown_code_silent envMember ⟨some 1, some "nope", none⟩ Session.cleared
    [⟨"A12", "T", "link", "u"⟩] (by decide) (by decide) (by decide) (by decide)

/-- C8 (counterexample to the claim as stated): with the channel
configured as the username string `"@kanal"` (which `int()` fails to
parse), a join request for chat id 777 — which does not match the
configured channel id — still triggers the approval call, because the
guard only checks when the cast id is an int. -/
theorem C8_username_config_counterexample :
    chatMatches (castChannelId "@kanal") 777 = false ∧
    on_join_request (castChannelId "@kanal") ⟨777, 5⟩ = true := by
  decide

/-- C8 (amended): when the configured channel id parses as an integer,
the auto-approver approves exactly the join requests whose chat id equals
it (any other chat id is ignored, no approval call); when the configured
id is a non-numeric `@username` string, the guard is skipped and every
join request is approved. -/
theorem C8_numeric_guard_only :
    (∀ (n : Int) (req : JoinReq), req.chatId ≠ n →
      on_join_request (.int n) req = false) ∧
    (∀ (n : Int) (req : JoinReq), req.chatId = n →
      on_join_request (.int n) req = true) ∧
    (∀ (s : String) (req : JoinReq), on_join_request (.username s) req = true) := by
  refine ⟨fun n req h => ?_, fun n req h => ?_, fun s req => rfl⟩ <;>
    simp [on_join_request, h]

/-- Witness for C8 (amended): chat 1 is ignored under configured id 0,
approved under configured id 1. -/
theorem C8_numeric_guard_only_witness :
    on_join_request (.int 0) ⟨1, 2⟩ = false ∧
    on_join_request (.int 1) ⟨1, 2⟩ = true :=
  ⟨C8_numeric_guard_only.1 0 ⟨1, 2⟩ (by decide),
   C8_numeric_guard_only.2.1 1 ⟨1, 2⟩ rfl⟩

/-- C9: every wizard step and the lookup path strip surrounding
whitespace from the message text before validating and storing: the code
step matches the pattern against the stripped text and stores the
stripped text as the draft code; the title step stores the stripped
title; the content step upserts the stripped text as the link payload;
and the lookup keys `get_movie` by the stripped text. -/
theorem C9_handlers_strip_input (env : Env) (msg : Msg) (s : Session) (db : DB)
    (hr : (require_subscribed env msg).1 = true) :
    (CODE_RE_match (pyStrip (msg.text.getD "")) = true →
      (add_movie_code env msg s db).1
        = { s with state := .title,
                   draftCode := some (pyStrip (msg.text.getD "")) }) ∧
    (pyStrip (msg.text.getD "") ≠ "" →
      (add_movie_title env msg s db).1
        = { s with state := .content,
                   draftTitle := some (pyStrip (msg.text.getD "")) }) ∧
    ((pyStartsWith (pyStrip (msg.text.getD "")) "http://"
        || pyStartsWith (pyStrip (msg.text.getD "")) "https://") = true →
      (add_movie_content env msg s db).2.1
        = upsert_movie db (s.draftCode.getD "") (s.draftTitle.getD "") "link"
            (pyStrip (msg.text.getD ""))) ∧
    ((handle_codes env msg s db).2.2
      = if pyStrip (msg.text.getD "") = "" then []
        else
          match get_movie db (pyStrip (msg.text.getD "")) with
          | none => []
          | some (a, b, p) => send_movie env a b p) := by
  have h2 := require_outs_nil env msg hr
  refine ⟨fun h => ?_, fun h => ?_, fun h => ?_, ?_⟩
  · simp [add_movie_code, hr, h]
  · simp [add_movie_title, hr, h]
  · simp [add_movie_content, hr, h]
  · by_cases he : pyStrip (msg.text.getD "") = ""
    · simp [handle_codes, hr, h2, he]
    · cases hg : get_movie db (pyStrip (msg.text.getD "")) with
      | none => simp [handle_codes, hr, h2, he, hg]
      | some v =>
        obtain ⟨a, b, p⟩ := v
        simp [handle_codes, hr, h2, he, hg]

/-- Witness for C9: the code step on text `" A12 "` stores the stripped
draft code. -/
theorem C9_handlers_strip_input_witness :
    (add_movie_code envMember ⟨some 1, some " A12 ", none⟩
        ⟨.code, none, none⟩ []).1
      = { (⟨.code, none, none⟩ : Session) with
            state := .title,
            draftCode := some (pyStrip ((⟨some 1, some " A12 ", none⟩ :
              Msg).text.getD "")) } :=
  (C9_handlers_strip_input envMember ⟨some 1, some " A12 ", none⟩
      ⟨.code, none, none⟩ [] (by decide)).1 (by decide)

end MovieBot
